import Mathlib

/-!
Shallow embedding of `src/js/model-loader-component.js`, the `WebGLModelLoader`
custom element (a Three.js GLTF model viewer widget).

Modelling conventions:
* JavaScript numbers that can become `NaN`/`Infinity` through `parseFloat` or
  arithmetic are modelled by `JSNum`; coordinates, deltas and camera positions
  (always finite in the code paths under study) are plain rationals.
* The Three.js backend (scene graph, renderer, loader, `Box3`, `Math.tan`) is
  external to the repository.  Quantities it produces — the bounding-box centre
  and size of a loaded model, and the numeric value of `Math.tan(fov/2)` — are
  passed to the embedded functions as explicit parameters.
* Asynchronous GLTF loading is embedded by splitting `loadModel` into the
  synchronous call (which only issues the request) and its two completion
  callbacks `onGltfLoaded` / `onGltfError`; completions may then be applied to
  the widget state in any order, matching the event-loop semantics.
* DOM side effects (event dispatch, issuing a network load) are returned as an
  explicit `Effect` list; backend `dispose()` calls are accumulated in a
  `disposeLog` field so resource-release behaviour is observable.
-/

/-- A JavaScript number as produced by `parseFloat` and touched by the widget's
arithmetic: either a finite value, an infinity, or `NaN`. -/
inductive JSNum where
  | nan
  | posInf
  | negInf
  | num (q : ℚ)
deriving DecidableEq

/-- JavaScript `+` on numbers, restricted to the cases the widget performs
(`rotation.y += …`): `NaN` is absorbing, opposite infinities give `NaN`. -/
def JSNum.add : JSNum → JSNum → JSNum
  | JSNum.num a, JSNum.num b => JSNum.num (a + b)
  | JSNum.nan, _ => JSNum.nan
  | _, JSNum.nan => JSNum.nan
  | JSNum.posInf, JSNum.negInf => JSNum.nan
  | JSNum.negInf, JSNum.posInf => JSNum.nan
  | JSNum.posInf, _ => JSNum.posInf
  | _, JSNum.posInf => JSNum.posInf
  | JSNum.negInf, _ => JSNum.negInf
  | _, JSNum.negInf => JSNum.negInf

/-- JavaScript `attr || dflt` on an attribute read: `getAttribute` returns
`null` (here `none`) for an absent attribute, and both `null` and the empty
string are falsy, so only those fall back to the default string. -/
def jsOrDefault (v : Option String) (dflt : String) : String :=
  match v with
  | none => dflt
  | some s => if s = "" then dflt else s

/-- Value of a list of decimal digit characters. -/
def digitsToNat (ds : List Char) : ℕ :=
  ds.foldl (fun a c => 10 * a + (c.toNat - 48)) 0

/-- Value of the fractional-digit block of a decimal literal. -/
def fracValue (ds : List Char) : ℚ :=
  (digitsToNat ds : ℚ) / (10 : ℚ) ^ ds.length

/-- Exponent part of a decimal literal after the `e`/`E` marker: optional sign
followed by digits; an empty digit block leaves the exponent at `0` (JS
`parseFloat` stops before an incomplete exponent). -/
def expValueOf (r : List Char) : ℤ :=
  let p : ℤ × List Char :=
    match r with
    | '-' :: rr => (-1, rr)
    | '+' :: rr => (1, rr)
    | _ => (1, r)
  let eds := (p.2.span (fun c => c.isDigit)).1
  if eds.isEmpty then 0 else p.1 * (digitsToNat eds : ℤ)

/-- Shallow model of the JavaScript builtin `parseFloat` (an external runtime
function used by the widget): skip leading whitespace, read an optional sign,
then either the literal `Infinity` or the longest decimal-literal prefix
(integer digits, optional fraction, optional exponent).  If no digits can be
consumed the result is `NaN`. -/
def jsParseFloat (s : String) : JSNum :=
  let cs := s.data.dropWhile (fun c => c.isWhitespace)
  let sp : ℚ × List Char :=
    match cs with
    | '-' :: r => (-1, r)
    | '+' :: r => (1, r)
    | _ => (1, cs)
  let sgn := sp.1
  match sp.2 with
  | 'I' :: 'n' :: 'f' :: 'i' :: 'n' :: 'i' :: 't' :: 'y' :: _ =>
      if sgn = 1 then JSNum.posInf else JSNum.negInf
  | cs1 =>
      let ip := cs1.span (fun c => c.isDigit)
      let fp : List Char × List Char :=
        match ip.2 with
        | '.' :: r => r.span (fun c => c.isDigit)
        | _ => ([], ip.2)
      if ip.1.isEmpty ∧ fp.1.isEmpty then JSNum.nan
      else
        let mant : ℚ := (digitsToNat ip.1 : ℚ) + fracValue fp.1
        let e : ℤ :=
          match fp.2 with
          | 'e' :: r => expValueOf r
          | 'E' :: r => expValueOf r
          | _ => 0
        JSNum.num (sgn * mant * (10 : ℚ) ^ e)

/-- A `dispose()` call observed on the rendering backend: disposal of a
geometry, of a material, or of the WebGL renderer itself. -/
inductive DisposeEvent where
  | geom (id : ℕ)
  | mat (id : ℕ)
  | renderer
deriving DecidableEq

/-- The `material` slot of a Three.js object: absent, a single material, or an
array-valued multi-material assignment. -/
inductive MaterialSlot where
  | noMat
  | single (id : ℕ)
  | multi (ids : List ℕ)
deriving DecidableEq

/-- One node of a scene subgraph as seen by `disposeScene`'s traversal
callback: an optional geometry and a material slot.  `scene.traverse` visits
every node of the graph once, in order; a subgraph is embedded as the list of
its nodes in that traversal order. -/
structure Obj3D where
  geometry : Option ℕ
  material : MaterialSlot
deriving DecidableEq

/-- The body of the `disposeScene` traversal callback for one object: dispose
the geometry if present, then the material — each element of an array-valued
material, or the single material. -/
def disposeObject (o : Obj3D) : List DisposeEvent :=
  (match o.geometry with
   | some g => [DisposeEvent.geom g]
   | none => []) ++
  (match o.material with
   | MaterialSlot.noMat => []
   | MaterialSlot.single m => [DisposeEvent.mat m]
   | MaterialSlot.multi ms => ms.map (fun m => DisposeEvent.mat m))

/-- `disposeScene(scene)`: traverse every object of the graph in order and
dispose its geometry and material(s).  The resulting list is the sequence of
backend `dispose()` calls. -/
def disposeScene : List Obj3D → List DisposeEvent
  | [] => []
  | o :: os => disposeObject o ++ disposeScene os

/-- Number of objects of a subgraph whose geometry is `g`. -/
def geomOccurrences : List Obj3D → ℕ → ℕ
  | [], _ => 0
  | o :: os, g => (if o.geometry = some g then 1 else 0) + geomOccurrences os g

/-- Number of occurrences of material `m` in one material slot. -/
def slotOccurrences (sl : MaterialSlot) (m : ℕ) : ℕ :=
  match sl with
  | MaterialSlot.noMat => 0
  | MaterialSlot.single i => if i = m then 1 else 0
  | MaterialSlot.multi is => is.count m

/-- Number of occurrences of material `m` across a subgraph. -/
def matOccurrences : List Obj3D → ℕ → ℕ
  | [], _ => 0
  | o :: os, m => slotOccurrences o.material m + matOccurrences os m

/-- Payload of a successful GLTF load (`gltf.scene` plus `gltf.animations`):
an identifying tag, the subgraph nodes, and the number of animation clips. -/
structure GLTFModel where
  id : ℕ
  objs : List Obj3D
  animCount : ℕ
deriving DecidableEq

/-- The installed model (`this.model`): its GLTF payload plus the mutable
transform state the widget touches (Y rotation, scale, centering offset). -/
structure ModelInst where
  gltf : GLTFModel
  rotationY : JSNum
  scale : JSNum
  posX : ℚ
  posY : ℚ
  posZ : ℚ
deriving DecidableEq

/-- The scene (`this.scene`): background and the model subgraphs currently
added as children.  Lights carry no geometry or material and contribute no
dispose events, so they are not represented. -/
structure SceneState where
  background : Option String
  models : List GLTFModel
deriving DecidableEq

/-- The perspective camera (`this.camera`): position and field of view. -/
structure CameraState where
  posX : ℚ
  posY : ℚ
  posZ : ℚ
  fov : ℚ
deriving DecidableEq

/-- The WebGL renderer (`this.renderer`): whether `dispose()` was called. -/
structure RendererState where
  disposed : Bool
deriving DecidableEq

/-- The animation mixer (`this.animationMixer`): which model it drives and its
accumulated playback time. -/
structure MixerState where
  modelId : ℕ
  time : ℚ
deriving DecidableEq

/-- The full mutable state of a `WebGLModelLoader` element instance. -/
structure WidgetState where
  widthAttr : String
  heightAttr : String
  modelUrl : String
  backgroundColor : String
  isAutoRotate : Bool
  rotateSpeed : JSNum
  modelScale : JSNum
  isInitialized : Bool
  touchStartX : ℚ
  touchStartY : ℚ
  isHorizontalPan : Bool
  touchMoveStarted : Bool
  scene : Option SceneState
  camera : Option CameraState
  renderer : Option RendererState
  model : Option ModelInst
  animationMixer : Option MixerState
  disposeLog : List DisposeEvent
deriving DecidableEq

/-- The observable host-facing attribute set read by `connectedCallback`.
`none` models an absent attribute (`getAttribute` returning `null`);
`autoRotate` models `hasAttribute("auto-rotate")`. -/
structure Attrs where
  width : Option String
  height : Option String
  modelUrl : Option String
  background : Option String
  rotateSpeed : Option String
  scale : Option String
  autoRotate : Bool

/-- An event dispatched to the host through the shadow-DOM boundary. -/
inductive OutEvent where
  | modelLoaded (id : ℕ)
  | modelError (err : ℕ)
deriving DecidableEq

/-- An externally visible side effect of a widget operation. -/
inductive Effect where
  | dispatch (e : OutEvent)
  | issueLoad (url : String)
deriving DecidableEq

/-- `this.touchThreshold = 15` (pixels). -/
@[reducible] def touchThreshold : ℚ := 15

/-- `const rotationSpeed = 0.01` inside `handleHorizontalPan`. -/
@[reducible] def panRotationSpeed : ℚ := 1 / 100

/-- The camera-distance computation of `loadModel` / `resetCamera`:
`cameraZ = Math.abs(maxDim / 2 / Math.tan(fov / 2)); cameraZ *= 1.5` with
`maxDim = Math.max(size.x, size.y, size.z)`.  `t` is the numeric value of
`Math.tan(fov / 2)` computed by the JS math library (`tan(22.5°) ≈ 0.414` at
the fixed 45° field of view). -/
def frameDistance (sx sy sz t : ℚ) : ℚ :=
  let maxDim := max sx (max sy sz)
  |maxDim / 2 / t| * (3 / 2)

/-- Modelled from the spec: `distance = |maxDimension / 2 / tan(fov/2)| * 1.5`
(§4.2 CameraFramer), stated over the tangent value `t`, for comparison with
the code's `frameDistance`. -/
def spec_frameDistance (maxDim t : ℚ) : ℚ :=
  |maxDim / 2 / t| * (3 / 2)

/-- The field initialisers of the class constructor: no scene, camera or
renderer yet, no model, defaults for the display-control properties. -/
def constructorState : WidgetState :=
  { widthAttr := ""
    heightAttr := ""
    modelUrl := ""
    backgroundColor := ""
    isAutoRotate := false
    rotateSpeed := JSNum.num (5 / 1000)
    modelScale := JSNum.num 1
    isInitialized := false
    touchStartX := 0
    touchStartY := 0
    isHorizontalPan := false
    touchMoveStarted := false
    scene := none
    camera := none
    renderer := none
    model := none
    animationMixer := none
    disposeLog := [] }

/-- `connectedCallback` followed by its call to `initScene`: read the
attributes (with the `|| default` fallbacks), create the scene with the
configured background, the 45° camera at `(0, 0, 3)`, and the renderer, set
`isInitialized`, and issue the initial model load when `model-url` is
non-empty.  Lights and the DOM/canvas wiring have no observable state here. -/
def connectedCallback (a : Attrs) : WidgetState × List Effect :=
  let bg := jsOrDefault a.background "transparent"
  let url := jsOrDefault a.modelUrl ""
  let s : WidgetState :=
    { constructorState with
      widthAttr := jsOrDefault a.width "100%"
      heightAttr := jsOrDefault a.height "300px"
      modelUrl := url
      backgroundColor := bg
      isAutoRotate := a.autoRotate
      rotateSpeed := jsParseFloat (jsOrDefault a.rotateSpeed "0.005")
      modelScale := jsParseFloat (jsOrDefault a.scale "1.0")
      scene := some { background := if bg = "transparent" ∨ bg = "" then none else some bg
                      models := [] }
      camera := some { posX := 0, posY := 0, posZ := 3, fov := 45 }
      renderer := some { disposed := false }
      isInitialized := true }
  (s, if url ≠ "" then [Effect.issueLoad url] else [])

/-- `disconnectedCallback`: dispose the renderer if present, then run
`disposeScene` over the scene graph.  Note that neither `this.renderer` nor
`this.scene` is cleared — the fields keep pointing at the disposed objects. -/
def disconnectedCallback (s : WidgetState) : WidgetState :=
  let s1 :=
    match s.renderer with
    | some r => { s with renderer := some { r with disposed := true }
                         disposeLog := s.disposeLog ++ [DisposeEvent.renderer] }
    | none => s
  match s1.scene with
  | some sc => { s1 with disposeLog := s1.disposeLog ++ disposeScene (sc.models.flatMap (fun g => g.objs)) }
  | none => s1

/-- `handleHorizontalPan(deltaX)`: bail out when no model is installed;
otherwise apply `rotation.y += deltaX * rotationSpeed` and then refresh
`this.touchStartX` from the ambient `event` object.  During a `touchmove`
dispatch the global `event` is that touchmove event, so its first touch's
`clientX` is the current sample's x, passed here explicitly as `eventX`. -/
def handleHorizontalPan (s : WidgetState) (deltaX : ℚ) (eventX : ℚ) : WidgetState :=
  match s.model with
  | none => s
  | some m =>
      { s with model := some { m with rotationY := m.rotationY.add (JSNum.num (deltaX * panRotationSpeed)) }
               touchStartX := eventX }

/-- The `touchstart` listener: a single-contact start records the start
coordinates and resets both gesture flags; other contact counts are ignored. -/
def onTouchStart (s : WidgetState) (touches : ℕ) (x y : ℚ) : WidgetState :=
  if touches = 1 then
    { s with touchStartX := x, touchStartY := y
             isHorizontalPan := false, touchMoveStarted := false }
  else s

/-- The `touchmove` listener.  Returns the new state together with whether
`preventDefault()`/`stopPropagation()` were called on this event.  Only
single-contact moves are processed; the first sample that pushes either
absolute delta above the threshold decides the gesture once, and afterwards
only an already-claimed horizontal gesture keeps acting. -/
def onTouchMove (s : WidgetState) (touches : ℕ) (x y : ℚ) : WidgetState × Bool :=
  if touches = 1 then
    let deltaX := |x - s.touchStartX|
    let deltaY := |y - s.touchStartY|
    if s.touchMoveStarted = false ∧ (touchThreshold < deltaX ∨ touchThreshold < deltaY) then
      let s1 := { s with touchMoveStarted := true }
      if deltaY * 2 < deltaX ∧ touchThreshold < deltaX then
        (handleHorizontalPan { s1 with isHorizontalPan := true } (x - s.touchStartX) x, true)
      else
        ({ s1 with isHorizontalPan := false }, false)
    else if s.touchMoveStarted = true ∧ s.isHorizontalPan = true then
      (handleHorizontalPan s (x - s.touchStartX) x, true)
    else
      (s, false)
  else (s, false)

/-- The `touchend` listener: reset both gesture flags. -/
def onTouchEnd (s : WidgetState) : WidgetState :=
  { s with isHorizontalPan := false, touchMoveStarted := false }

/-- The `touchcancel` listener: identical reset of both gesture flags. -/
def onTouchCancel (s : WidgetState) : WidgetState :=
  { s with isHorizontalPan := false, touchMoveStarted := false }

/-- Feed a sequence of `touchmove` events (contact count and coordinates)
through the `touchmove` listener. -/
def runTouchMoves (s : WidgetState) (ms : List (ℕ × ℚ × ℚ)) : WidgetState :=
  ms.foldl (fun t e => (onTouchMove t e.1 e.2.1 e.2.2).1) s

/-- The synchronous body of `loadModel(url)`: construct a `GLTFLoader` and
issue the request; the widget state is untouched until a callback fires. -/
def loadModel (s : WidgetState) (url : String) : WidgetState × List Effect :=
  (s, [Effect.issueLoad url])

/-- The success callback of `loadModel`: remove (but do not dispose) any
previously installed model from the scene, install the new `gltf.scene` with
the currently configured scale, centre it, point the camera at distance
`frameDistance`, start the mixer when the asset has animation clips, and
dispatch `model-loaded`.  The bounding-box centre `(cx, cy, cz)`, size
`(sx, sy, sz)` and tangent value `t` come from the Three.js backend. -/
def onGltfLoaded (s : WidgetState) (g : GLTFModel) (scaleAttr : Option String)
    (cx cy cz sx sy sz t : ℚ) : WidgetState × List Effect :=
  let s1 :=
    match s.model, s.scene with
    | some m, some sc =>
        { s with scene := some { sc with models := sc.models.filter (fun g2 => g2.id ≠ m.gltf.id) } }
    | _, _ => s
  let scale := jsParseFloat (jsOrDefault scaleAttr "1.0")
  let inst : ModelInst :=
    { gltf := g, rotationY := JSNum.num 0, scale := scale
      posX := -cx, posY := -cy, posZ := -cz }
  let s2 := { s1 with model := some inst }
  let s3 :=
    match s2.scene with
    | some sc => { s2 with scene := some { sc with models := sc.models ++ [g] } }
    | none => s2
  let s4 :=
    match s3.camera with
    | some c => { s3 with camera := some { c with posZ := frameDistance sx sy sz t } }
    | none => s3
  let s5 :=
    if 0 < g.animCount then { s4 with animationMixer := some { modelId := g.id, time := 0 } }
    else s4
  (s5, [Effect.dispatch (OutEvent.modelLoaded g.id)])

/-- The error callback of `loadModel`: log to the console (no widget state)
and dispatch `model-error` carrying the underlying cause. -/
def onGltfError (s : WidgetState) (err : ℕ) : WidgetState × List Effect :=
  (s, [Effect.dispatch (OutEvent.modelError err)])

/-- One tick of `animate()`.  The first statement is
`requestAnimationFrame(this.animate)`, so the returned first boolean — whether
a further tick was scheduled — is unconditionally `true`.  Then: auto-rotate
the model if enabled, advance the mixer by the clock delta, and render when
renderer, scene and camera are all present (the second boolean). -/
def animate (s : WidgetState) (delta : ℚ) : WidgetState × Bool × Bool :=
  let scheduledNext := true
  let s1 :=
    if s.isAutoRotate = true then
      match s.model with
      | some m => { s with model := some { m with rotationY := m.rotationY.add s.rotateSpeed } }
      | none => s
    else s
  let s2 :=
    match s1.animationMixer with
    | some mx => { s1 with animationMixer := some { mx with time := mx.time + delta } }
    | none => s1
  (s2, scheduledNext, s2.renderer.isSome && s2.scene.isSome && s2.camera.isSome)

/-- `attributeChangedCallback(name, oldValue, newValue)`: a no-op before
initialisation; otherwise dispatch on the attribute name.  `auto-rotate` is a
presence flag (`hasAttribute` is `newValue ≠ null` during its own change
callback); `rotate-speed` and `scale` re-run the `parseFloat(v || default)`
idiom; `scale` writes only to the installed model's transform. -/
def attributeChangedCallback (s : WidgetState) (name : String)
    (oldValue newValue : Option String) : WidgetState × List Effect :=
  if s.isInitialized = false then (s, [])
  else if name = "model-url" then
    if newValue ≠ oldValue ∧ newValue ≠ none ∧ newValue ≠ some "" then
      (s, [Effect.issueLoad (jsOrDefault newValue "")])
    else (s, [])
  else if name = "background" then
    (match s.scene with
     | some sc =>
         if newValue = some "transparent" ∨ newValue = some "" then
           ({ s with scene := some { sc with background := none } }, [])
         else
           ({ s with scene := some { sc with background := some (jsOrDefault newValue "#000000") } }, [])
     | none => (s, []))
  else if name = "auto-rotate" then
    ({ s with isAutoRotate := newValue.isSome }, [])
  else if name = "rotate-speed" then
    ({ s with rotateSpeed := jsParseFloat (jsOrDefault newValue "0.005") }, [])
  else if name = "scale" then
    let sc := jsParseFloat (jsOrDefault newValue "1.0")
    (match s.model with
     | some m => ({ s with model := some { m with scale := sc } }, [])
     | none => (s, []))
  else (s, [])

/-- `resetCamera()`: bail out without a camera; otherwise reset the position
to `(0, 0, 5)` and, when a model is installed, recompute the z distance from
its bounding box via the same formula as `loadModel`.  The box size and
tangent value again come from the backend. -/
def resetCamera (s : WidgetState) (sx sy sz t : ℚ) : WidgetState :=
  match s.camera with
  | none => s
  | some c =>
      let c1 : CameraState := { c with posX := 0, posY := 0, posZ := 5 }
      match s.model with
      | none => { s with camera := some c1 }
      | some _ => { s with camera := some { c1 with posZ := frameDistance sx sy sz t } }

/-- Gesture phase `ClaimedHorizontal`: the direction decision has been made and
the gesture was claimed for model rotation. -/
def Claimed (s : WidgetState) : Prop :=
  s.touchMoveStarted = true ∧ s.isHorizontalPan = true

/-- Gesture phase `CededVertical`: the direction decision has been made and the
gesture was ceded to native vertical scrolling. -/
def Ceded (s : WidgetState) : Prop :=
  s.touchMoveStarted = true ∧ s.isHorizontalPan = false

/-- Gesture phase `Idle`: no decided gesture in progress. -/
def IdleGesture (s : WidgetState) : Prop :=
  s.touchMoveStarted = false ∧ s.isHorizontalPan = false

instance (s : WidgetState) : Decidable (Claimed s) := by unfold Claimed; infer_instance
instance (s : WidgetState) : Decidable (Ceded s) := by unfold Ceded; infer_instance
instance (s : WidgetState) : Decidable (IdleGesture s) := by unfold IdleGesture; infer_instance

/-- An attribute set with every attribute absent (all defaults). -/
def attrs0 : Attrs :=
  { width := none, height := none, modelUrl := none, background := none,
    rotateSpeed := none, scale := none, autoRotate := false }

/-- The widget state right after `connectedCallback`/`initScene` with no
attributes set: initialized, camera at `(0, 0, 3)`, empty scene, no model. -/
def initState : WidgetState := (connectedCallback attrs0).1

/-- Result of the load issued first in the overlapping-load scenario. -/
def resultA : GLTFModel := { id := 7, objs := [], animCount := 0 }

/-- Result of the load issued second in the overlapping-load scenario. -/
def resultB : GLTFModel := { id := 8, objs := [], animCount := 0 }

/-- State after `load(A)` and `load(B)` were both issued and B's (newer)
result completed first. -/
def afterBCompletes : WidgetState :=
  (onGltfLoaded initState resultB none 0 0 0 1 1 1 (414 / 1000)).1

/-- State after A's stale result then completes late. -/
def afterACompletes : WidgetState :=
  (onGltfLoaded afterBCompletes resultA none 0 0 0 1 1 1 (414 / 1000)).1

/-- A model whose subgraph owns one geometry and a two-element multi-material
array — three GPU resources in total. -/
def gOld : GLTFModel :=
  { id := 1, objs := [{ geometry := some 10, material := MaterialSlot.multi [20, 21] }]
    animCount := 0 }

/-- A second model that replaces `gOld`. -/
def gNew : GLTFModel :=
  { id := 2, objs := [{ geometry := some 30, material := MaterialSlot.single 31 }]
    animCount := 0 }

/-- State with `gOld` installed and present in the scene. -/
def sWithOld : WidgetState :=
  (onGltfLoaded initState gOld none 0 0 0 1 1 1 (414 / 1000)).1

/-- State after the load of `gNew` completes and replaces `gOld`. -/
def sReplaced : WidgetState :=
  (onGltfLoaded sWithOld gNew none 0 0 0 1 1 1 (414 / 1000)).1

/-- A small model payload for the gesture scenarios. -/
def gDemo : GLTFModel :=
  { id := 3, objs := [{ geometry := some 40, material := MaterialSlot.single 41 }]
    animCount := 0 }

/-- A state in the middle of a gesture already claimed for horizontal
rotation (decision made, model installed, reference X at 10). -/
def sClaimedModel : WidgetState :=
  { (onGltfLoaded initState gDemo none 0 0 0 2 2 2 (414 / 1000)).1 with
    touchMoveStarted := true, isHorizontalPan := true, touchStartX := 10 }

/-- A claimed-horizontal gesture state (no model installed). -/
def sClaimedDemo : WidgetState :=
  { initState with touchMoveStarted := true, isHorizontalPan := true }

/-- A ceded-vertical gesture state. -/
def sCededDemo : WidgetState :=
  { initState with touchMoveStarted := true, isHorizontalPan := false }

/-- The `ModelInst` installed by the load of `gDemo` in `sClaimedModel`. -/
def mDemo : ModelInst :=
  { gltf := gDemo, rotationY := JSNum.num 0, scale := JSNum.num 1
    posX := 0, posY := 0, posZ := 0 }

/-- The `ModelInst` installed by the load of `gOld` in `sWithOld`. -/
def mOld : ModelInst :=
  { gltf := gOld, rotationY := JSNum.num 0, scale := JSNum.num 1
    posX := 0, posY := 0, posZ := 0 }

/-- The scene of `sWithOld`: transparent background, `gOld` as sole child. -/
def scWithOld : SceneState := { background := none, models := [gOld] }

/-- The camera created by `initScene`. -/
def camInit : CameraState := { posX := 0, posY := 0, posZ := 3, fov := 45 }

lemma handleHorizontalPan_touchMoveStarted (s : WidgetState) (d ex : ℚ) :
    (handleHorizontalPan s d ex).touchMoveStarted = s.touchMoveStarted := by
  unfold handleHorizontalPan
  rcases hm : s.model with _ | m <;> simp [hm]

lemma handleHorizontalPan_isHorizontalPan (s : WidgetState) (d ex : ℚ) :
    (handleHorizontalPan s d ex).isHorizontalPan = s.isHorizontalPan := by
  unfold handleHorizontalPan
  rcases hm : s.model with _ | m <;> simp [hm]

lemma onTouchMove_claimed_eq (s : WidgetState) (x y : ℚ) (h : Claimed s) :
    onTouchMove s 1 x y = (handleHorizontalPan s (x - s.touchStartX) x, true) := by
  obtain ⟨h1, h2⟩ := h
  unfold onTouchMove
  simp [h1, h2]

lemma onTouchMove_ceded_eq (s : WidgetState) (n : ℕ) (x y : ℚ) (h : Ceded s) :
    onTouchMove s n x y = (s, false) := by
  obtain ⟨h1, h2⟩ := h
  unfold onTouchMove
  by_cases hn : n = 1 <;> simp [hn, h1, h2]

lemma onTouchMove_multi (s : WidgetState) (n : ℕ) (x y : ℚ) (h : ¬ n = 1) :
    onTouchMove s n x y = (s, false) := by
  unfold onTouchMove
  simp [h]

lemma onTouchMove_preserves_claimed (s : WidgetState) (n : ℕ) (x y : ℚ) (h : Claimed s) :
    Claimed (onTouchMove s n x y).1 := by
  by_cases hn : n = 1
  · subst hn
    rw [onTouchMove_claimed_eq s x y h]
    exact ⟨(handleHorizontalPan_touchMoveStarted s (x - s.touchStartX) x).trans h.1,
           (handleHorizontalPan_isHorizontalPan s (x - s.touchStartX) x).trans h.2⟩
  · rw [onTouchMove_multi s n x y hn]
    exact h

lemma runTouchMoves_cons (s : WidgetState) (m : ℕ × ℚ × ℚ) (ms : List (ℕ × ℚ × ℚ)) :
    runTouchMoves s (m :: ms) = runTouchMoves (onTouchMove s m.1 m.2.1 m.2.2).1 ms := rfl

lemma runTouchMoves_preserves_claimed (s : WidgetState) (ms : List (ℕ × ℚ × ℚ))
    (h : Claimed s) : Claimed (runTouchMoves s ms) := by
  induction ms generalizing s with
  | nil => exact h
  | cons m ms ih =>
      rw [runTouchMoves_cons]
      exact ih (onTouchMove s m.1 m.2.1 m.2.2).1 (onTouchMove_preserves_claimed s m.1 m.2.1 m.2.2 h)

lemma runTouchMoves_ceded_noop (s : WidgetState) (ms : List (ℕ × ℚ × ℚ))
    (h : Ceded s) : runTouchMoves s ms = s := by
  induction ms generalizing s with
  | nil => rfl
  | cons m ms ih =>
      rw [runTouchMoves_cons, onTouchMove_ceded_eq s m.1 m.2.1 m.2.2 h]
      exact ih s h

/-- C4: once a gesture's direction decision is made it is sticky — from a
`ClaimedHorizontal` state any sequence of further `touchmove` events leaves the
gesture claimed (never ceded), from a `CededVertical` state every further
`touchmove` is a complete no-op (state unchanged, no `preventDefault`), and
`touchend`/`touchcancel` return the machine to `Idle` from any state. -/
theorem gesture_decision_sticky (s : WidgetState) (ms : List (ℕ × ℚ × ℚ)) (n : ℕ) (x y : ℚ) :
    (Claimed s → Claimed (runTouchMoves s ms) ∧ ¬ Ceded (runTouchMoves s ms)) ∧
    (Ceded s → runTouchMoves s ms = s ∧ (onTouchMove s n x y).2 = false) ∧
    IdleGesture (onTouchEnd s) ∧ IdleGesture (onTouchCancel s) := by
  refine ⟨fun h => ?_, fun h => ⟨runTouchMoves_ceded_noop s ms h, ?_⟩, ⟨rfl, rfl⟩, ⟨rfl, rfl⟩⟩
  · have hc := runTouchMoves_preserves_claimed s ms h
    refine ⟨hc, fun hced => ?_⟩
    exact Bool.noConfusion (hc.2.symm.trans hced.2)
  · rw [onTouchMove_ceded_eq s n x y h]

/-- Witness for C4 at concrete gesture states. -/
theorem gesture_decision_sticky_witness :
    Claimed (runTouchMoves sClaimedDemo [(1, 100, 0)]) ∧
    runTouchMoves sCededDemo [(1, 100, 0)] = sCededDemo :=
  ⟨((gesture_decision_sticky sClaimedDemo [(1, 100, 0)] 1 100 0).1
      (by with_unfolding_all decide)).1,
   ((gesture_decision_sticky sCededDemo [(1, 100, 0)] 1 100 0).2.1
      (by with_unfolding_all decide)).1⟩

lemma onTouchMove_pending_decide (s : WidgetState) (x y : ℚ)
    (hpend : s.touchMoveStarted = false)
    (htrig : touchThreshold < |x - s.touchStartX| ∨ touchThreshold < |y - s.touchStartY|) :
    onTouchMove s 1 x y =
      if |y - s.touchStartY| * 2 < |x - s.touchStartX| ∧ touchThreshold < |x - s.touchStartX| then
        (handleHorizontalPan { s with touchMoveStarted := true, isHorizontalPan := true }
          (x - s.touchStartX) x, true)
      else
        ({ s with touchMoveStarted := true, isHorizontalPan := false }, false) := by
  unfold onTouchMove
  simp [hpend, htrig]

/-- C5: the first single-contact move sample that pushes a delta above the
15-pixel threshold decides the gesture — claimed horizontal iff
`deltaX > 2 * deltaY` and `deltaX > 15`, ceded to vertical scrolling
otherwise. -/
theorem first_threshold_move_decides (s : WidgetState) (x y : ℚ)
    (hpend : s.touchMoveStarted = false)
    (htrig : 15 < |x - s.touchStartX| ∨ 15 < |y - s.touchStartY|) :
    (Claimed (onTouchMove s 1 x y).1 ↔
        2 * |y - s.touchStartY| < |x - s.touchStartX| ∧ 15 < |x - s.touchStartX|) ∧
    (¬ (2 * |y - s.touchStartY| < |x - s.touchStartX| ∧ 15 < |x - s.touchStartX|) →
        Ceded (onTouchMove s 1 x y).1) := by
  have hkey := onTouchMove_pending_decide s x y hpend htrig
  by_cases hdec : |y - s.touchStartY| * 2 < |x - s.touchStartX| ∧
      touchThreshold < |x - s.touchStartX|
  · rw [if_pos hdec] at hkey
    have hdec2 : 2 * |y - s.touchStartY| < |x - s.touchStartX| ∧
        15 < |x - s.touchStartX| := ⟨by linarith [hdec.1], hdec.2⟩
    refine ⟨⟨fun _ => hdec2, fun _ => ?_⟩, fun hcon => absurd hdec2 hcon⟩
    rw [hkey]
    exact ⟨(handleHorizontalPan_touchMoveStarted _ _ _).trans rfl,
           (handleHorizontalPan_isHorizontalPan _ _ _).trans rfl⟩
  · rw [if_neg hdec] at hkey
    have hnot : ¬ (2 * |y - s.touchStartY| < |x - s.touchStartX| ∧
        15 < |x - s.touchStartX|) := by
      intro hcon
      exact hdec ⟨by linarith [hcon.1], hcon.2⟩
    refine ⟨⟨fun hcl => ?_, fun hcon => absurd hcon hnot⟩, fun _ => ?_⟩
    · rw [hkey] at hcl
      exact absurd hcl.2 (by simp)
    · rw [hkey]
      exact ⟨rfl, rfl⟩

/-- Witness for C5: from the pending state with start `(0, 0)`, the sample
`(20, 5)` claims horizontal and the sample `(16, 12)` cedes vertical. -/
theorem first_threshold_move_decides_witness :
    Claimed (onTouchMove initState 1 20 5).1 ∧ Ceded (onTouchMove initState 1 16 12).1 :=
  ⟨(first_threshold_move_decides initState 20 5 (by with_unfolding_all decide)
      (by with_unfolding_all decide)).1.mpr (by with_unfolding_all decide),
   (first_threshold_move_decides initState 16 12 (by with_unfolding_all decide)
      (by with_unfolding_all decide)).2 (by with_unfolding_all decide)⟩

/-- C7: every single-contact move of a gesture already claimed horizontal
suppresses the native default action, increments the model's Y rotation by
`(currentX - referenceX) * 0.01`, and then updates the stored reference X to
the current X — incremental, not absolute, delta application. -/
theorem claimed_move_applies_incremental_delta (s : WidgetState) (m : ModelInst)
    (r x y : ℚ) (hcl : Claimed s) (hm : s.model = some m)
    (hr : m.rotationY = JSNum.num r) :
    (onTouchMove s 1 x y).2 = true ∧
    (onTouchMove s 1 x y).1.model =
      some { m with rotationY := JSNum.num (r + (x - s.touchStartX) * (1 / 100)) } ∧
    (onTouchMove s 1 x y).1.touchStartX = x := by
  rw [onTouchMove_claimed_eq s x y hcl]
  refine ⟨rfl, ?_, ?_⟩
  · show (handleHorizontalPan s (x - s.touchStartX) x).model = _
    unfold handleHorizontalPan
    rw [hm]
    simp [hr, JSNum.add, panRotationSpeed]
  · show (handleHorizontalPan s (x - s.touchStartX) x).touchStartX = x
    unfold handleHorizontalPan
    rw [hm]

/-- Witness for C7 at a concrete claimed state with reference X 10 and a move
to x = 14. -/
theorem claimed_move_applies_incremental_delta_witness :
    (onTouchMove sClaimedModel 1 14 0).2 = true ∧
    (onTouchMove sClaimedModel 1 14 0).1.model =
      some { mDemo with rotationY := JSNum.num ((0 : ℚ) + (14 - sClaimedModel.touchStartX) * (1 / 100)) } ∧
    (onTouchMove sClaimedModel 1 14 0).1.touchStartX = 14 :=
  claimed_move_applies_incremental_delta sClaimedModel mDemo 0 14 0
    (by with_unfolding_all decide) (by with_unfolding_all decide)
    (by with_unfolding_all decide)

lemma onGltfLoaded_model (s : WidgetState) (g : GLTFModel) (sa : Option String)
    (cx cy cz sx sy sz t : ℚ) :
    ((onGltfLoaded s g sa cx cy cz sx sy sz t).1).model =
      some { gltf := g, rotationY := JSNum.num 0
             scale := jsParseFloat (jsOrDefault sa "1.0")
             posX := -cx, posY := -cy, posZ := -cz } := by
  unfold onGltfLoaded
  rcases hm : s.model with _ | m <;> rcases hs : s.scene with _ | sc <;>
    rcases hc : s.camera with _ | c <;> simp [hm, hs, hc] <;> split_ifs <;> rfl

lemma onGltfLoaded_disposeLog (s : WidgetState) (g : GLTFModel) (sa : Option String)
    (cx cy cz sx sy sz t : ℚ) :
    ((onGltfLoaded s g sa cx cy cz sx sy sz t).1).disposeLog = s.disposeLog := by
  unfold onGltfLoaded
  rcases hm : s.model with _ | m <;> rcases hs : s.scene with _ | sc <;>
    rcases hc : s.camera with _ | c <;> simp [hm, hs, hc] <;> split_ifs <;> rfl

lemma onGltfLoaded_effects (s : WidgetState) (g : GLTFModel) (sa : Option String)
    (cx cy cz sx sy sz t : ℚ) :
    (onGltfLoaded s g sa cx cy cz sx sy sz t).2
      = [Effect.dispatch (OutEvent.modelLoaded g.id)] := by
  unfold onGltfLoaded
  rcases hm : s.model with _ | m <;> rcases hs : s.scene with _ | sc <;>
    rcases hc : s.camera with _ | c <;> simp [hm, hs, hc]

lemma onGltfLoaded_camera (s : WidgetState) (g : GLTFModel) (sa : Option String)
    (cx cy cz sx sy sz t : ℚ) (c : CameraState) (hc : s.camera = some c) :
    ((onGltfLoaded s g sa cx cy cz sx sy sz t).1).camera =
      some { c with posZ := frameDistance sx sy sz t } := by
  unfold onGltfLoaded
  rcases hm : s.model with _ | m <;> rcases hs : s.scene with _ | sc <;>
    simp [hm, hs, hc] <;> split_ifs <;> rfl

lemma onGltfLoaded_scene (s : WidgetState) (g : GLTFModel) (sa : Option String)
    (cx cy cz sx sy sz t : ℚ) (m : ModelInst) (sc : SceneState)
    (hm : s.model = some m) (hs : s.scene = some sc) :
    ((onGltfLoaded s g sa cx cy cz sx sy sz t).1).scene =
      some { sc with models := sc.models.filter (fun g2 => g2.id ≠ m.gltf.id) ++ [g] } := by
  unfold onGltfLoaded
  rcases hc : s.camera with _ | c <;> simp [hm, hs, hc] <;> split_ifs <;> rfl

lemma count_geom_disposeObject (o : Obj3D) (g : ℕ) :
    (disposeObject o).count (DisposeEvent.geom g) = if o.geometry = some g then 1 else 0 := by
  rcases o with ⟨geo, mat⟩
  rcases geo with _ | g0 <;> rcases mat with _ | m0 | ms <;>
    simp [disposeObject, List.count_append, List.count_cons, List.count_eq_zero,
      List.mem_map]

lemma count_mat_disposeObject (o : Obj3D) (m : ℕ) :
    (disposeObject o).count (DisposeEvent.mat m) = slotOccurrences o.material m := by
  rcases o with ⟨geo, mat⟩
  have hinj : Function.Injective DisposeEvent.mat := fun a b h => by injection h
  rcases geo with _ | g0 <;> rcases mat with _ | m0 | ms <;>
    simp [disposeObject, slotOccurrences, List.count_append, List.count_cons,
      List.count_map_of_injective _ DisposeEvent.mat hinj]

lemma disposeScene_count_geom (objs : List Obj3D) (g : ℕ) :
    (disposeScene objs).count (DisposeEvent.geom g) = geomOccurrences objs g := by
  induction objs with
  | nil => rfl
  | cons o os ih =>
      simp [disposeScene, geomOccurrences, List.count_append, count_geom_disposeObject, ih]

lemma disposeScene_count_mat (objs : List Obj3D) (m : ℕ) :
    (disposeScene objs).count (DisposeEvent.mat m) = matOccurrences objs m := by
  induction objs with
  | nil => rfl
  | cons o os ih =>
      simp [disposeScene, matOccurrences, List.count_append, count_mat_disposeObject, ih]

/-- C1 counterexample: `load(A)` is issued, then `load(B)`; B's result
completes first and is installed, then A's stale result completes late — and
the code installs it, overriding B.  There is no request counter, so the claim
that only the latest issued request's result is applied fails. -/
theorem stale_result_overrides_newer :
    (afterBCompletes.model.map fun mi => mi.gltf) = some resultB ∧
    (afterACompletes.model.map fun mi => mi.gltf) = some resultA ∧
    resultA ≠ resultB := by
  with_unfolding_all decide

/-- C1 amended: the success callback installs its own result unconditionally —
whichever load completes last is the one installed (last-completed wins, not
last-issued), and `model-loaded` is dispatched for every completion. -/
theorem load_completion_always_installs (s : WidgetState) (g : GLTFModel)
    (sa : Option String) (cx cy cz sx sy sz t : ℚ) :
    ((onGltfLoaded s g sa cx cy cz sx sy sz t).1.model.map (fun mi => mi.gltf)) = some g ∧
    (onGltfLoaded s g sa cx cy cz sx sy sz t).2
      = [Effect.dispatch (OutEvent.modelLoaded g.id)] := by
  refine ⟨?_, onGltfLoaded_effects s g sa cx cy cz sx sy sz t⟩
  rw [onGltfLoaded_model s g sa cx cy cz sx sy sz t]
  rfl

/-- C2 counterexample: replacing the installed `gOld` (one geometry, two
array materials — three resources) by `gNew` performs zero backend `dispose()`
calls: the dispose log stays empty although the claim requires each of the
three resources disposed exactly once before the old handle is dropped. -/
theorem replacement_disposes_nothing :
    sReplaced.disposeLog = [] ∧
    (disposeScene gOld.objs).count (DisposeEvent.geom 10) = 1 ∧
    (disposeScene gOld.objs).count (DisposeEvent.mat 20) = 1 ∧
    (disposeScene gOld.objs).count (DisposeEvent.mat 21) = 1 ∧
    sReplaced.disposeLog.count (DisposeEvent.geom 10) = 0 ∧
    sReplaced.disposeLog.count (DisposeEvent.mat 20) = 0 ∧
    (sReplaced.model.map fun mi => mi.gltf) = some gNew := by
  with_unfolding_all decide

/-- C2 amended: a successful load that replaces the previously installed model
removes it from the scene and leaves exactly one active handle, but performs
no disposal at all — the dispose log is unchanged; geometry/material disposal
happens only at teardown, where `disposeScene` emits exactly one dispose call
per occurrence of each geometry and material in the traversed subgraph. -/
theorem install_replaces_without_dispose (s : WidgetState) (m : ModelInst)
    (sc : SceneState) (g : GLTFModel) (sa : Option String) (cx cy cz sx sy sz t : ℚ)
    (hm : s.model = some m) (hs : s.scene = some sc) (hone : sc.models = [m.gltf]) :
    ((onGltfLoaded s g sa cx cy cz sx sy sz t).1.scene.map (fun sc2 => sc2.models))
        = some [g] ∧
    ((onGltfLoaded s g sa cx cy cz sx sy sz t).1.model.map (fun mi => mi.gltf)) = some g ∧
    (onGltfLoaded s g sa cx cy cz sx sy sz t).1.disposeLog = s.disposeLog ∧
    (∀ objs gid, (disposeScene objs).count (DisposeEvent.geom gid) = geomOccurrences objs gid) ∧
    (∀ objs mid, (disposeScene objs).count (DisposeEvent.mat mid) = matOccurrences objs mid) := by
  refine ⟨?_, ?_, onGltfLoaded_disposeLog s g sa cx cy cz sx sy sz t,
    fun objs gid => disposeScene_count_geom objs gid,
    fun objs mid => disposeScene_count_mat objs mid⟩
  · rw [onGltfLoaded_scene s g sa cx cy cz sx sy sz t m sc hm hs]
    simp [hone]
  · rw [onGltfLoaded_model s g sa cx cy cz sx sy sz t]
    rfl

/-- Witness for the amended C2 at the concrete replacement of `gOld` by
`gNew`. -/
theorem install_replaces_without_dispose_witness :
    ((onGltfLoaded sWithOld gNew none 0 0 0 1 1 1 (414 / 1000)).1.scene.map
        (fun sc2 => sc2.models)) = some [gNew] ∧
    (onGltfLoaded sWithOld gNew none 0 0 0 1 1 1 (414 / 1000)).1.disposeLog
        = sWithOld.disposeLog :=
  ⟨(install_replaces_without_dispose sWithOld mOld scWithOld gNew none 0 0 0 1 1 1
      (414 / 1000) (by with_unfolding_all decide) (by with_unfolding_all decide)
      (by with_unfolding_all decide)).1,
   (install_replaces_without_dispose sWithOld mOld scWithOld gNew none 0 0 0 1 1 1
      (414 / 1000) (by with_unfolding_all decide) (by with_unfolding_all decide)
      (by with_unfolding_all decide)).2.2.1⟩

/-- C3 counterexample: at the degenerate zero-size bounding box (with the 45°
field of view's tangent value ≈ 0.414) the computed camera distance is exactly
0 — finite, but not the fixed positive minimum fallback the claim requires. -/
theorem zero_box_distance_not_positive :
    frameDistance 0 0 0 (414 / 1000) = 0 ∧ ¬ (0 < frameDistance 0 0 0 (414 / 1000)) := by
  with_unfolding_all decide

/-- C3 amended: for a degenerate bounding box (maximum dimension 0) the
camera-distance computation divides only by 2 and by the nonzero tangent of
the fixed half field of view, so it produces no infinity or NaN; the result is
exactly 0 — non-negative, but there is no positive minimum fallback. -/
theorem degenerate_box_framing (sx sy sz t : ℚ) (_ht : t ≠ 0)
    (hdeg : max sx (max sy sz) = 0) :
    frameDistance sx sy sz t = 0 ∧ 0 ≤ frameDistance sx sy sz t := by
  constructor
  · simp [frameDistance, hdeg]
  · simp only [frameDistance]
    positivity

/-- Witness for the amended C3 at the zero-size box. -/
theorem degenerate_box_framing_witness :
    frameDistance 0 0 0 (414 / 1000) = 0 ∧ 0 ≤ frameDistance 0 0 0 (414 / 1000) :=
  degenerate_box_framing 0 0 0 (414 / 1000) (by with_unfolding_all decide)
    (by with_unfolding_all decide)

/-- C6: a successful load sets the camera distance to
`|maxDimension / 2 / tan(fov/2)| * 1.5` with `maxDimension` the largest
bounding-box extent (the code's formula coincides with the spec's); a box of
size `(2,2,2)` gives `|1/tan(22.5°)| * 1.5`, positive whenever the tangent is
nonzero; and re-running the framing computation (`resetCamera`) with the same
bounding box and field of view is idempotent. -/
theorem camera_framing_formula (s : WidgetState) (c : CameraState) (g : GLTFModel)
    (sa : Option String) (cx cy cz sx sy sz t : ℚ) (hc : s.camera = some c) :
    ((onGltfLoaded s g sa cx cy cz sx sy sz t).1.camera.map (fun c2 => c2.posZ))
        = some (frameDistance sx sy sz t) ∧
    frameDistance sx sy sz t = spec_frameDistance (max sx (max sy sz)) t ∧
    frameDistance 2 2 2 t = |1 / t| * (3 / 2) ∧
    (t ≠ 0 → 0 < frameDistance 2 2 2 t) ∧
    resetCamera (resetCamera s sx sy sz t) sx sy sz t = resetCamera s sx sy sz t := by
  have h222 : frameDistance 2 2 2 t = |1 / t| * (3 / 2) := by
    unfold frameDistance
    norm_num
  refine ⟨?_, rfl, h222, fun ht => ?_, ?_⟩
  · rw [onGltfLoaded_camera s g sa cx cy cz sx sy sz t c hc]
    rfl
  · rw [h222]
    exact mul_pos (abs_pos.mpr (one_div_ne_zero ht)) (by norm_num)
  · rcases hmod : s.model with _ | m <;> simp [resetCamera, hc, hmod]

/-- Witness for C6 at the post-initialisation state and a `(2,2,2)` box. -/
theorem camera_framing_formula_witness :
    ((onGltfLoaded initState gDemo none 0 0 0 2 2 2 (414 / 1000)).1.camera.map
        (fun c2 => c2.posZ)) = some (frameDistance 2 2 2 (414 / 1000)) ∧
    0 < frameDistance 2 2 2 (414 / 1000) :=
  ⟨(camera_framing_formula initState camInit gDemo none 0 0 0 2 2 2 (414 / 1000)
      (by with_unfolding_all decide)).1,
   (camera_framing_formula initState camInit gDemo none 0 0 0 2 2 2 (414 / 1000)
      (by with_unfolding_all decide)).2.2.2.1 (by with_unfolding_all decide)⟩

/-- C8 counterexample: after `disconnectedCallback` runs on the initialized
widget (teardown), the very next `animate` tick still schedules a further tick
via `requestAnimationFrame` — and still renders, since neither the renderer
nor the scene field is cleared.  The render loop is never stopped. -/
theorem render_loop_survives_teardown :
    (animate (disconnectedCallback initState) 1).2.1 = true ∧
    (animate (disconnectedCallback initState) 1).2.2 = true := by
  with_unfolding_all decide

/-- C8 amended: every `animate` tick unconditionally schedules its successor
(the loop is never cancelled, destruction included); a tick before
initialization completes (no model, no mixer, no renderer) leaves the state
unchanged and renders nothing. -/
theorem animate_always_reschedules (s : WidgetState) (d : ℚ) :
    (animate s d).2.1 = true ∧
    (s.model = none → s.animationMixer = none → (animate s d).1 = s) ∧
    (s.renderer = none → (animate s d).2.2 = false) := by
  refine ⟨rfl, fun hm hx => ?_, fun hr => ?_⟩
  · unfold animate
    by_cases ha : s.isAutoRotate = true <;> simp [ha, hm, hx]
  · unfold animate
    by_cases ha : s.isAutoRotate = true <;>
      rcases hm2 : s.model with _ | mm <;>
      rcases hx2 : s.animationMixer with _ | mx <;>
      simp [ha, hm2, hx2, hr]

/-- Witness for the amended C8 at the pre-initialization constructor state. -/
theorem animate_always_reschedules_witness :
    (animate constructorState 1).2.1 = true ∧
    (animate constructorState 1).1 = constructorState ∧
    (animate constructorState 1).2.2 = false :=
  ⟨(animate_always_reschedules constructorState 1).1,
   (animate_always_reschedules constructorState 1).2.1 (by with_unfolding_all decide)
     (by with_unfolding_all decide),
   (animate_always_reschedules constructorState 1).2.2 (by with_unfolding_all decide)⟩

/-- C9 counterexample: a non-empty unparseable value for `rotate-speed` is
truthy, so the `v || "0.005"` fallback does not trigger and `parseFloat`
stores `NaN` in the configuration instead of the documented default 0.005 —
both on a post-initialization attribute change and at `connectedCallback`. -/
theorem unparseable_attr_stores_nan :
    (attributeChangedCallback initState "rotate-speed" none (some "abc")).1.rotateSpeed
        = JSNum.nan ∧
    JSNum.nan ≠ JSNum.num (1 / 200) ∧
    (connectedCallback { attrs0 with rotateSpeed := some "abc" }).1.rotateSpeed
        = JSNum.nan := by
  with_unfolding_all decide

/-- C9 amended: the `parseFloat(v || default)` idiom falls back to the
documented default (0.005 for `rotate-speed`, 1.0 for `scale`) only when the
attribute is absent or the empty string; the update dispatches no event
(failures are not surfaced), and an unparseable non-empty value is stored as
whatever `parseFloat` yields (NaN). -/
theorem numeric_attr_fallback_only_for_empty (s : WidgetState) (old v : Option String)
    (hinit : s.isInitialized = true) :
    (attributeChangedCallback s "rotate-speed" old v).1.rotateSpeed
        = jsParseFloat (jsOrDefault v "0.005") ∧
    ((v = none ∨ v = some "") →
      (attributeChangedCallback s "rotate-speed" old v).1.rotateSpeed
        = JSNum.num (1 / 200)) ∧
    (attributeChangedCallback s "rotate-speed" old v).2 = [] ∧
    (∀ a : Attrs, a.rotateSpeed = none →
      (connectedCallback a).1.rotateSpeed = JSNum.num (1 / 200)) ∧
    (∀ a : Attrs, a.scale = none → (connectedCallback a).1.modelScale = JSNum.num 1) := by
  have hbody : attributeChangedCallback s "rotate-speed" old v
      = ({ s with rotateSpeed := jsParseFloat (jsOrDefault v "0.005") }, []) := by
    unfold attributeChangedCallback
    simp [hinit]
  refine ⟨by rw [hbody], fun hv => ?_, by rw [hbody], fun a ha => ?_, fun a ha => ?_⟩
  · rw [hbody]
    rcases hv with hv | hv <;> subst hv <;> show jsParseFloat "0.005" = _ <;>
      with_unfolding_all decide
  · have hfield : (connectedCallback a).1.rotateSpeed
        = jsParseFloat (jsOrDefault a.rotateSpeed "0.005") := rfl
    rw [hfield, ha]
    with_unfolding_all decide
  · have hfield : (connectedCallback a).1.modelScale
        = jsParseFloat (jsOrDefault a.scale "1.0") := rfl
    rw [hfield, ha]
    with_unfolding_all decide

/-- Witness for the amended C9: removing the attribute falls back to 0.005. -/
theorem numeric_attr_fallback_only_for_empty_witness :
    (attributeChangedCallback initState "rotate-speed" none none).1.rotateSpeed
        = JSNum.num (1 / 200) :=
  (numeric_attr_fallback_only_for_empty initState none none
      (by with_unfolding_all decide)).2.1 (Or.inl rfl)

/-- C10: the load-error callback dispatches `model-error` carrying the cause
and leaves the entire widget state — installed model, scene, camera, mixer —
exactly unchanged, so a previously loaded model keeps rendering and a
subsequent `loadModel` call can still issue a new request. -/
theorem load_error_preserves_state (s : WidgetState) (err : ℕ) (url : String) :
    (onGltfError s err).1 = s ∧
    (onGltfError s err).2 = [Effect.dispatch (OutEvent.modelError err)] ∧
    loadModel (onGltfError s err).1 url = ((onGltfError s err).1, [Effect.issueLoad url]) :=
  ⟨rfl, rfl, rfl⟩
